import Mathlib

/-
Shallow embedding of the mlflow-sagemaker repository (src/mlops.py and
src/snowflakeops.py).

External services (the container registry, the tracking server, the
endpoint-hosting service, the warehouse connector, the shell) are modelled
as oracles: each call site receives the outcome the service would return.
Raised Python exceptions are modelled as `Except.error` carrying the
message; console side effects that the claims mention are modelled
explicitly; network side effects are recorded in an ordered `Effect`
trace.
-/

/-- Whether the character list `pat` starts the character list `s`. -/
def startsWithChars : List Char → List Char → Bool
  | [], _ => true
  | _ :: _, [] => false
  | p :: ps, c :: cs => p == c && startsWithChars ps cs

/-- Whether the character list `pat` occurs contiguously in `s`. -/
def occursInChars (pat : List Char) : List Char → Bool
  | [] => startsWithChars pat []
  | c :: cs => startsWithChars pat (c :: cs) || occursInChars pat cs

/-- Python `pat in s` substring containment. -/
def containsSubstring (s pat : String) : Bool :=
  occursInChars pat.data s.data

/-- Python `str()` applied to an optional string: `str(None)` is `"None"`. -/
def pyStr : Option String → String
  | none => "None"
  | some s => s

/-- Python truthiness of an optional string: `None` and `""` are falsy. -/
def pyTruthy : Option String → Bool
  | none => false
  | some s => decide (s ≠ "")

/-- Python truthiness of an optional integer: `None` and `0` are falsy. -/
def pyTruthyInt : Option Int → Bool
  | none => false
  | some t => decide (t ≠ 0)

/-- Deployment mode constants of `mlflow.sagemaker`
(`DEPLOYMENT_MODE_CREATE` / `_REPLACE` / `_ADD`); the source compares them
with `is`, which on these module-level constants is equality. -/
inductive Mode where
  | create
  | replace
  | add
  deriving DecidableEq, Repr

/-- One network / filesystem side effect issued by the scripts, in program
order. -/
inductive Effect where
  | describeRepos (name : String)
  | createRepo (name : String)
  | buildImage (name : String)
  | pushImage (name : String)
  | describeEndpoint (app : String)
  | getRun (runId : String)
  | mfsDeploy (app : String) (mode : Mode)
  | mfsDelete (app : String) (archive : Bool)
  | invokeEndpoint (app : String)
  | writeFile (path : String)
  deriving DecidableEq, Repr

/-- Recognizes the hosting-service delete call in a trace. -/
def isDelete : Effect → Bool
  | .mfsDelete _ _ => true
  | _ => false

/-- Days-since-epoch to (year, month, day), the standard civil-from-days
algorithm, matching what `datetime` renders for the local wall-clock day. -/
def civilFromDays (z0 : Int) : Int × Nat × Nat :=
  let z := z0 + 719468
  let era : Int := Int.fdiv z 146097
  let doe : Nat := (z - era * 146097).toNat
  let yoe : Nat := (doe - doe / 1460 + doe / 36524 - doe / 146096) / 365
  let y : Int := (yoe : Int) + era * 400
  let doy : Nat := doe - (365 * yoe + yoe / 4 - yoe / 100)
  let mp : Nat := (5 * doy + 2) / 153
  let d : Nat := doy - (153 * mp + 2) / 5 + 1
  let m : Nat := if mp < 10 then mp + 3 else mp - 9
  (if m ≤ 2 then y + 1 else y, m, d)

/-- Two-digit zero padding, as strftime renders `%m` `%d` `%H` `%M` `%S`. -/
def pad2 (n : Nat) : String :=
  if n < 10 then "0" ++ toString n else toString n

/-- Four-digit zero padding for the year, as glibc strftime renders `%Y`. -/
def pad4 (n : Int) : String :=
  if n < 0 then "-" ++ toString (-n)
  else if n < 10 then "000" ++ toString n
  else if n < 100 then "00" ++ toString n
  else if n < 1000 then "0" ++ toString n
  else toString n

/-- src/mlops.py `convert_to_date_time` (lines 125-129).
`datetime.datetime.fromtimestamp(mlflow_epoc / 1000)` builds a NAIVE local
datetime (local timezone passed here explicitly as minutes east of UTC);
`%Y-%m-%d` renders the date and `%H:%M:%S%z` renders the time, where `%z`
on a naive datetime renders the EMPTY string, so the returned time string
carries no UTC offset. -/
def convert_to_date_time (tzOffsetMinutes : Int) (mlflow_epoc : Int) : String × String :=
  let secs : Int := Int.fdiv mlflow_epoc 1000
  let localSecs : Int := secs + tzOffsetMinutes * 60
  let days : Int := Int.fdiv localSecs 86400
  let sod : Nat := (localSecs - days * 86400).toNat
  let ymd := civilFromDays days
  let date := pad4 ymd.1 ++ "-" ++ pad2 ymd.2.1 ++ "-" ++ pad2 ymd.2.2
  let time := pad2 (sod / 3600) ++ ":" ++ pad2 (sod % 3600 / 60) ++ ":" ++ pad2 (sod % 60)
  (date, time)

/-- Outcome of the registry lookup in src/mlops.py lines 38-41: either the
repository is found or the client raises `RepositoryNotFoundException`.
The registry is modelled as the set of existing repository names; other
service errors (which lines 59-62 re-raise unchanged) are out of scope,
the spec treating the registry as an opaque RPC. -/
inductive EcrDescribeOutcome where
  | found
  | repositoryNotFound
  deriving DecidableEq, Repr

/-- `describe_repositories` against the name-set registry model. -/
def describe_repositories (st : List String) (repository_name : String) : EcrDescribeOutcome :=
  if repository_name ∈ st then .found else .repositoryNotFound

/-- src/mlops.py `create_repository` (lines 35-62): look the repository up;
if found, no-op; on `RepositoryNotFoundException`, create it (fixed tags and
AES256 encryption, not modelled further). Returns the new registry state,
the trace of registry calls, and the raised error if any. -/
def create_repository (st : List String) (repository_name : String) :
    List String × List Effect × Except String Unit :=
  match describe_repositories st repository_name with
  | .found => (st, [Effect.describeRepos repository_name], .ok ())
  | .repositoryNotFound =>
      (st ++ [repository_name],
       [Effect.describeRepos repository_name, Effect.createRepo repository_name],
       .ok ())

/-- src/mlops.py `create_mlflow_base_docker_image` (lines 106-112), given
the exit code of the build subprocess. On a non-zero exit the source
assigns the message to the misspelled variable `mgs` (line 110) and then
evaluates `print(msg)` (line 111) where `msg` is an undefined name, so
Python raises `NameError` BEFORE printing anything and before reaching the
`raise ValueError(msg)` line. The first component is the list of lines
printed by the function. -/
def create_mlflow_base_docker_image (status_code : Int) : List String × Except String Unit :=
  if status_code ≠ 0 then
    ([], .error "NameError: name msg is not defined")
  else
    ([], .ok ())

/-- src/mlops.py `check_sagemaker_endpoint_status` (lines 77-89), given the
outcome of `describe_endpoint` (`.ok status` or `.error message`): a
success returns the status string; an error whose message contains
"Could not find endpoint" is mapped to `none` (absent); any other error is
re-raised unchanged. -/
def check_sagemaker_endpoint_status (describeOutcome : Except String String) :
    Except String (Option String) :=
  match describeOutcome with
  | .ok endpoint_status => .ok (some endpoint_status)
  | .error msg =>
      if containsSubstring msg "Could not find endpoint" then .ok none
      else .error msg

/-- The `info` block of a tracking-server run record (`model_run.info`). -/
structure MlflowRunInfo where
  experiment_id : String
  lifecycle_stage : String
  status : String
  artifact_uri : String
  start_time : Option Int
  end_time : Option Int
  deriving DecidableEq, Repr

/-- The `data` block of a run record: metric map and tag map. Metric
values are floats in the source; no claim inspects them, so they are
modelled as integers. -/
structure MlflowRunData where
  metrics : List (String × Int)
  tags : List (String × String)
  deriving DecidableEq, Repr

/-- A tracking-server run record (`client.get_run(run_id)`). -/
structure MlflowRun where
  info : MlflowRunInfo
  data : MlflowRunData
  deriving DecidableEq, Repr

/-- Python slicing `s[:n]` on a `str`: the first `n` code points. -/
def strSlice (s : String) (n : Nat) : String :=
  ⟨s.data.take n⟩

/-- Python dict lookup as an option; `d[k]` raises `KeyError` when this is
`none`. -/
def dictGet {α : Type} (m : List (String × α)) (k : String) : Option α :=
  (m.find? (fun p => p.1 == k)).map Prod.snd

/-- The `run_info` dict assembled by `get_mlflow_model_details`. -/
structure RunDetails where
  experiment_id : String
  life_cycle_stage : String
  status : String
  artifact_uri : String
  start_date : Option String
  start_time : Option String
  end_date : Option String
  end_time : Option String
  accuracy_score : Int
  average_precision : Int
  f1_score : Int
  git_sha : Option String
  experiment_name : String
  deriving DecidableEq, Repr

/-- src/mlops.py `get_mlflow_model_details` (lines 132-172) as a function
of the fetched run record (the experiment name returned by
`client.get_experiment` is passed in by the caller's oracle). Timestamps
are converted only when truthy (lines 148-156); the three metric lookups
and the tag lookup are Python dict indexing, raising `KeyError` when the
key is absent (lines 158-162); the git tag is stored as fetched and then
overwritten by its first 8 characters when truthy (lines 163-165). -/
def get_mlflow_model_details (tzOffsetMinutes : Int) (run : MlflowRun)
    (experiment_name : String) : Except String RunDetails :=
  let st := run.info.start_time
  let et := run.info.end_time
  let startPair : Option (String × String) :=
    if pyTruthyInt st then some (convert_to_date_time tzOffsetMinutes (st.getD 0)) else none
  let endPair : Option (String × String) :=
    if pyTruthyInt et then some (convert_to_date_time tzOffsetMinutes (et.getD 0)) else none
  match dictGet run.data.metrics "accuracy score" with
  | none => .error "KeyError: accuracy score"
  | some accuracy_score =>
  match dictGet run.data.metrics "average precision" with
  | none => .error "KeyError: average precision"
  | some average_precision =>
  match dictGet run.data.metrics "f1-score" with
  | none => .error "KeyError: f1-score"
  | some f1_score =>
  match dictGet run.data.tags "mlflow.source.git.commit" with
  | none => .error "KeyError: mlflow.source.git.commit"
  | some git_sha =>
    let gs : Option String :=
      if decide (git_sha ≠ "") then some (strSlice git_sha 8) else some git_sha
    .ok {
      experiment_id := run.info.experiment_id
      life_cycle_stage := run.info.lifecycle_stage
      status := run.info.status
      artifact_uri := run.info.artifact_uri
      start_date := startPair.map Prod.fst
      start_time := startPair.map Prod.snd
      end_date := endPair.map Prod.fst
      end_time := endPair.map Prod.snd
      accuracy_score := accuracy_score
      average_precision := average_precision
      f1_score := f1_score
      git_sha := gs
      experiment_name := experiment_name
    }

/-- Oracle outcomes for the service calls `deploy_model` can issue: the
`describe_endpoint` outcome inside its status check, the tracking-server
run lookup, the experiment name, and the outcome of `mfs.deploy`. -/
structure DeployEnv where
  describeOutcome : Except String String
  runLookup : Except String MlflowRun
  experimentName : String
  deployOutcome : Except String Unit
  deriving Repr

/-- src/mlops.py `deploy_model` (lines 175-207): check the endpoint status
(propagating its errors); if the status is truthy AND the mode is create,
print and raise `ValueError` (lines 188-191) before contacting the
tracking server or the hosting service; otherwise fetch the run details
(line 193) and issue `mfs.deploy` (lines 202-203). Returns the trace of
service calls in program order and the raised error if any. -/
def deploy_model (env : DeployEnv) (tzOffsetMinutes : Int)
    (app_name run_id : String) (sagemaker_model_mode : Mode) :
    List Effect × Except String Unit :=
  match check_sagemaker_endpoint_status env.describeOutcome with
  | .error e => ([Effect.describeEndpoint app_name], .error e)
  | .ok status =>
    if pyTruthy status ∧ sagemaker_model_mode = Mode.create then
      ([Effect.describeEndpoint app_name],
       .error ("AWS Sagemaker endpoint " ++ app_name ++ " exist."))
    else
      match env.runLookup with
      | .error e => ([Effect.describeEndpoint app_name, Effect.getRun run_id], .error e)
      | .ok run =>
        match get_mlflow_model_details tzOffsetMinutes run env.experimentName with
        | .error e => ([Effect.describeEndpoint app_name, Effect.getRun run_id], .error e)
        | .ok _details =>
          match env.deployOutcome with
          | .error e =>
              ([Effect.describeEndpoint app_name, Effect.getRun run_id,
                Effect.mfsDeploy app_name sagemaker_model_mode], .error e)
          | .ok _ =>
              ([Effect.describeEndpoint app_name, Effect.getRun run_id,
                Effect.mfsDeploy app_name sagemaker_model_mode], .ok ())

/-- src/mlops.py `destroy_model` (lines 210-218): check the endpoint
status (propagating its errors); if the status is truthy, issue
`mfs.delete(..., archive=False)` with the given outcome; otherwise print
and raise `ValueError` without contacting the hosting service. -/
def destroy_model (describeOutcome : Except String String)
    (deleteOutcome : Except String Unit) (app_name : String) :
    List Effect × Except String Unit :=
  match check_sagemaker_endpoint_status describeOutcome with
  | .error e => ([Effect.describeEndpoint app_name], .error e)
  | .ok status =>
    if pyTruthy status then
      ([Effect.describeEndpoint app_name, Effect.mfsDelete app_name false], deleteOutcome)
    else
      ([Effect.describeEndpoint app_name],
       .error ("Model " ++ app_name ++ " Endpoint not present"))

/-- Value returned by `get_test_data`: either a Python `bytes` object
(UTF-8 code units) or a Python `str`. -/
inductive TestData where
  | bytes (bs : List Nat)
  | text (s : String)
  deriving DecidableEq, Repr

/-- UTF-8 encoding of a string, as Python `str.encode("utf-8")`. -/
def utf8Bytes (s : String) : List Nat :=
  s.toUTF8.data.toList.map (fun b => b.toNat)

/-- src/mlops.py `get_test_data` (lines 240-250) as a function of the file
content (`none` when the file does not exist). A missing file is logged
and yields `None`; existing content is read as a `str`, and encoded to
UTF-8 bytes only when truthy (non-empty), so an empty file returns the
empty `str` itself. -/
def get_test_data (fileContent : Option String) : Option TestData :=
  match fileContent with
  | none => none
  | some data =>
      if decide (data ≠ "") then some (.bytes (utf8Bytes data))
      else some (.text data)

/-- A warehouse cursor: the outcome of `cursor.execute(sql)` as a function
of the statement, and the outcome of `cursor.fetchall()` (rows are opaque
strings). -/
structure Cursor where
  executeOutcome : String → Except String Unit
  fetchOutcome : Except String (List String)

/-- A warehouse connection: `connection.cursor()` may return a falsy
cursor (`none`). -/
structure Conn where
  cursor : Option Cursor

/-- Observable outcome of `execute_query`: the returned value or raised
error, whether a (truthy) cursor was obtained, and whether it was closed. -/
structure QueryOutcome where
  result : Except String (Option (List String))
  cursorOpened : Bool
  cursorClosed : Bool
  deriving Repr

/-- src/snowflakeops.py `execute_query` (lines 24-40): a falsy connection
falls through and returns `None`; otherwise a cursor is obtained and, when
truthy, the statement is executed — an execute error is logged and
re-raised, a `fetchall` error is swallowed by the bare `except: pass`
(returning `None`), and the `finally` block closes the truthy cursor on
every path. -/
def execute_query (connection : Option Conn) (sql_query : String) : QueryOutcome :=
  match connection with
  | none => { result := .ok none, cursorOpened := false, cursorClosed := false }
  | some conn =>
    match conn.cursor with
    | none => { result := .ok none, cursorOpened := false, cursorClosed := false }
    | some c =>
      match c.executeOutcome sql_query with
      | .error e => { result := .error e, cursorOpened := true, cursorClosed := true }
      | .ok _ =>
        match c.fetchOutcome with
        | .ok results => { result := .ok (some results), cursorOpened := true, cursorClosed := true }
        | .error _ => { result := .ok none, cursorOpened := true, cursorClosed := true }

/-- Oracle outcomes for every service call the `__main__` block of
src/mlops.py (lines 278-329) can issue, one field per call site in
program order. -/
structure WorldEnv where
  tzOffset : Int
  ecr : List String
  buildExit : Int
  pushOutcome : Except String Unit
  envVars : String → Option String
  describePre : Except String String
  describeInDeploy : Except String String
  runLookup : Except String MlflowRun
  experimentName : String
  deployOutcome : Except String Unit
  describePost : Except String String
  testFile : Option String
  inferOutcome : Except String String
  predDirExists : Bool
  describeInDestroy : Except String String
  deleteOutcome : Except String Unit

/-- src/mlops.py `push_image_to_sagemaker` (lines 253-264): ensure the
repository, build the base image, push it; each step's failure aborts the
rest. -/
def push_image_to_sagemaker (ecr : List String) (buildExit : Int)
    (pushOutcome : Except String Unit) (repository_name image_name : String) :
    List Effect × Except String Unit :=
  let repo := create_repository ecr repository_name
  let build := create_mlflow_base_docker_image buildExit
  match build.2 with
  | .error e => (repo.2.1 ++ [Effect.buildImage image_name], .error e)
  | .ok _ =>
    match pushOutcome with
    | .error e => (repo.2.1 ++ [Effect.buildImage image_name, Effect.pushImage image_name], .error e)
    | .ok _ => (repo.2.1 ++ [Effect.buildImage image_name, Effect.pushImage image_name], .ok ())

/-- The final step of the `__main__` block (line 329): `destroy_model`,
appended to the trace accumulated so far. -/
def mainTeardown (tr : List Effect) (env : WorldEnv) (app_name : String) :
    List Effect × Except String Unit :=
  let d := destroy_model env.describeInDestroy env.deleteOutcome app_name
  (tr ++ d.1, d.2)

/-- The `__main__` block of src/mlops.py (lines 278-329), transcribed in
source order: publish the image; read the five environment variables
(`os.environ[...]` raises `KeyError` when absent); pre-check the endpoint
status and raise if truthy (lines 289-293); `deploy_model` with the
default create mode; re-check the status through `str(...)` (line 303, so
an absent endpoint renders as "None"); if the string contains "InService",
load the test data, and when it is truthy run one inference and write the
prediction file (only when its directory exists), otherwise merely log;
if the string does not contain "InService", print and raise `ValueError`
(lines 324-326); finally `destroy_model` (line 329), reached only when
nothing before it raised. -/
def main_script (env : WorldEnv) : List Effect × Except String Unit :=
  let p := push_image_to_sagemaker env.ecr env.buildExit env.pushOutcome "mlflow-pyfunc" "mlflow-pyfunc"
  match p.2 with
  | .error e => (p.1, .error e)
  | .ok _ =>
  match env.envVars "APP_NAME" with
  | none => (p.1, .error "KeyError: APP_NAME")
  | some app_name =>
  match env.envVars "RUN_ID" with
  | none => (p.1, .error "KeyError: RUN_ID")
  | some run_id =>
  match env.envVars "BUCKET" with
  | none => (p.1, .error "KeyError: BUCKET")
  | some _bucket =>
  match env.envVars "TRACKING_URI" with
  | none => (p.1, .error "KeyError: TRACKING_URI")
  | some _tracking_uri =>
  match env.envVars "INPUT_TEST_FILE" with
  | none => (p.1, .error "KeyError: INPUT_TEST_FILE")
  | some _input_test_file =>
  let tr1 := p.1 ++ [Effect.describeEndpoint app_name]
  match check_sagemaker_endpoint_status env.describePre with
  | .error e => (tr1, .error e)
  | .ok status1 =>
  if pyTruthy status1 then
    (tr1, .error ("Model " ++ app_name ++ " Endpoint name already exist"))
  else
  let dep := deploy_model
      { describeOutcome := env.describeInDeploy, runLookup := env.runLookup,
        experimentName := env.experimentName, deployOutcome := env.deployOutcome }
      env.tzOffset app_name run_id Mode.create
  let tr2 := tr1 ++ dep.1
  match dep.2 with
  | .error e => (tr2, .error e)
  | .ok _ =>
  let tr3 := tr2 ++ [Effect.describeEndpoint app_name]
  match check_sagemaker_endpoint_status env.describePost with
  | .error e => (tr3, .error e)
  | .ok status2 =>
  let statusStr := pyStr status2
  if containsSubstring statusStr "InService" then
    match get_test_data env.testFile with
    | some (TestData.bytes (_b :: _bs)) =>
      let tr4 := tr3 ++ [Effect.invokeEndpoint app_name]
      match env.inferOutcome with
      | .error e => (tr4, .error e)
      | .ok _prediction =>
        let tr5 :=
          if env.predDirExists then tr4 ++ [Effect.writeFile ("inference-" ++ app_name ++ ".pred")]
          else tr4
        mainTeardown tr5 env app_name
    | _ => mainTeardown tr3 env app_name
  else
    (tr3, .error ("AWS Sagemaker endpoint is InService. Current status is " ++ statusStr))

/-- A run record whose metric map has the three required keys and whose
tag map carries a 16-character commit hash. -/
def runWithTag : MlflowRun :=
  { info := { experiment_id := "1", lifecycle_stage := "active", status := "FINISHED",
              artifact_uri := "s3://bucket/artifacts", start_time := none, end_time := none },
    data := { metrics := [("accuracy score", 95), ("average precision", 90), ("f1-score", 92)],
              tags := [("mlflow.source.git.commit", "abcdef1234567890")] } }

/-- The same run record with an empty tag map. -/
def runNoTag : MlflowRun :=
  { info := { experiment_id := "1", lifecycle_stage := "active", status := "FINISHED",
              artifact_uri := "s3://bucket/artifacts", start_time := none, end_time := none },
    data := { metrics := [("accuracy score", 95), ("average precision", 90), ("f1-score", 92)],
              tags := [] } }

/-- The record `get_mlflow_model_details` assembles for `runWithTag`. -/
def runWithTagDetails : RunDetails :=
  { experiment_id := "1", life_cycle_stage := "active", status := "FINISHED",
    artifact_uri := "s3://bucket/artifacts",
    start_date := none, start_time := none, end_date := none, end_time := none,
    accuracy_score := 95, average_precision := 90, f1_score := 92,
    git_sha := some "abcdef12", experiment_name := "exp" }

/-- A cursor whose execute succeeds and whose fetch raises. -/
def fetchFailCursor : Cursor :=
  { executeOutcome := fun _ => .ok (), fetchOutcome := .error "no rows" }

/-- A connection holding `fetchFailCursor`. -/
def fetchFailConn : Conn := { cursor := some fetchFailCursor }

/-- A deploy environment whose status check reports the endpoint present
with the nonempty status "InService". -/
def presentDeployEnv : DeployEnv :=
  { describeOutcome := .ok "InService", runLookup := .ok runWithTag,
    experimentName := "exp", deployOutcome := .ok () }

/-- A deploy environment whose status check succeeds with the EMPTY status
string: the endpoint is reported present (non-absent) yet falsy. -/
def emptyStatusDeployEnv : DeployEnv :=
  { describeOutcome := .ok "", runLookup := .ok runWithTag,
    experimentName := "exp", deployOutcome := .ok () }

/-- A world in which image publishing, the pre-deploy check (endpoint
absent) and the deploy all succeed, but the post-deploy re-check reports
the status "Creating", which does not contain "InService". -/
def notInServiceWorld : WorldEnv :=
  { tzOffset := 0
    ecr := []
    buildExit := 0
    pushOutcome := .ok ()
    envVars := fun k => dictGet
      [("APP_NAME", "demo"), ("RUN_ID", "rid"), ("BUCKET", "b"),
       ("TRACKING_URI", "t"), ("INPUT_TEST_FILE", "f")] k
    describePre := .error "Could not find endpoint demo"
    describeInDeploy := .error "Could not find endpoint demo"
    runLookup := .ok runWithTag
    experimentName := "exp"
    deployOutcome := .ok ()
    describePost := .ok "Creating"
    testFile := none
    inferOutcome := .ok "1"
    predDirExists := true
    describeInDestroy := .ok "InService"
    deleteOutcome := .ok () }

/-- Every trace `deploy_model` can produce is free of hosting-service
delete calls. -/
theorem deploy_model_trace_no_delete (env : DeployEnv) (tz : Int)
    (app_name run_id : String) (mode : Mode) :
    ((deploy_model env tz app_name run_id mode).1).filter isDelete = [] := by
  unfold deploy_model
  rcases check_sagemaker_endpoint_status env.describeOutcome with e | status
  · rfl
  · simp only
    split
    · rfl
    · rcases env.runLookup with e | run
      · rfl
      · simp only
        rcases get_mlflow_model_details tz run env.experimentName with e | d
        · rfl
        · simp only
          rcases env.deployOutcome with e | u <;> rfl

/-- Every trace `push_image_to_sagemaker` can produce is free of
hosting-service delete calls, and the step succeeds when the build exits
with 0 and the push succeeds. -/
theorem push_image_no_delete (ecr : List String) (buildExit : Int)
    (pushOutcome : Except String Unit) (rn im : String) :
    ((push_image_to_sagemaker ecr buildExit pushOutcome rn im).1).filter isDelete = []
    ∧ (buildExit = 0 → pushOutcome = .ok () →
        (push_image_to_sagemaker ecr buildExit pushOutcome rn im).2 = .ok ()) := by
  constructor
  · unfold push_image_to_sagemaker create_repository describe_repositories
      create_mlflow_base_docker_image
    by_cases hm : rn ∈ ecr <;>
      by_cases hb : buildExit = 0 <;>
        rcases pushOutcome with e | u <;>
          simp [hm, hb, isDelete]
  · intro hb hp
    subst hb hp
    unfold push_image_to_sagemaker create_mlflow_base_docker_image
    simp

/-- C4: in the `__main__` sequence, when every step up to the post-deploy
status re-check succeeds and that re-check reports a status whose string
form does not contain "InService", the script raises the fatal
`ValueError` of lines 324-326 and the final `destroy_model` step (line
329) never executes: the whole trace carries no hosting-service delete
call, so the endpoint is left running. -/
theorem main_post_check_not_in_service (env : WorldEnv)
    (app_name run_id bucket tracking_uri input_test_file : String)
    (st0 stPost : Option String)
    (hbuild : env.buildExit = 0)
    (hpush : env.pushOutcome = .ok ())
    (h1 : env.envVars "APP_NAME" = some app_name)
    (h2 : env.envVars "RUN_ID" = some run_id)
    (h3 : env.envVars "BUCKET" = some bucket)
    (h4 : env.envVars "TRACKING_URI" = some tracking_uri)
    (h5 : env.envVars "INPUT_TEST_FILE" = some input_test_file)
    (hpre : check_sagemaker_endpoint_status env.describePre = .ok st0)
    (hpre2 : pyTruthy st0 = false)
    (hdep : (deploy_model
        { describeOutcome := env.describeInDeploy, runLookup := env.runLookup,
          experimentName := env.experimentName, deployOutcome := env.deployOutcome }
        env.tzOffset app_name run_id Mode.create).2 = .ok ())
    (hpost : check_sagemaker_endpoint_status env.describePost = .ok stPost)
    (hns : containsSubstring (pyStr stPost) "InService" = false) :
    (main_script env).2
      = .error ("AWS Sagemaker endpoint is InService. Current status is "
          ++ pyStr stPost)
    ∧ ((main_script env).1).filter isDelete = [] := by
  have hp := push_image_no_delete env.ecr env.buildExit env.pushOutcome
    "mlflow-pyfunc" "mlflow-pyfunc"
  have hp2 := hp.2 hbuild hpush
  have hd1 := deploy_model_trace_no_delete
    { describeOutcome := env.describeInDeploy, runLookup := env.runLookup,
      experimentName := env.experimentName, deployOutcome := env.deployOutcome }
    env.tzOffset app_name run_id Mode.create
  constructor
  · simp only [main_script, hp2, h1, h2, h3, h4, h5, hpre, hpre2, hdep, hpost, hns]
    simp
  · simp only [main_script, hp2, h1, h2, h3, h4, h5, hpre, hpre2, hdep, hpost, hns]
    simp [List.filter_append, hp.1, hd1, isDelete]

/-- C4 witness: in `notInServiceWorld` the re-check reports "Creating":
the script ends in the fatal error and its trace holds no delete call. -/
theorem main_post_check_not_in_service_witness :
    (main_script notInServiceWorld).2
      = .error ("AWS Sagemaker endpoint is InService. Current status is "
          ++ pyStr (some "Creating"))
    ∧ ((main_script notInServiceWorld).1).filter isDelete = [] :=
  main_post_check_not_in_service notInServiceWorld "demo" "rid" "b" "t" "f"
    none (some "Creating") rfl rfl rfl rfl rfl rfl rfl rfl rfl rfl rfl (by decide)

/-- C6: `check_sagemaker_endpoint_status` returns the absent status
(`none`) exactly when the service error message contains
"Could not find endpoint"; every other error propagates unchanged; a
successful lookup returns the (present) status string. -/
theorem check_status_absent_iff_not_found (msg endpoint_status : String) :
    (containsSubstring msg "Could not find endpoint" = true →
        check_sagemaker_endpoint_status (.error msg) = .ok none)
    ∧ (containsSubstring msg "Could not find endpoint" = false →
        check_sagemaker_endpoint_status (.error msg) = .error msg)
    ∧ check_sagemaker_endpoint_status (.ok endpoint_status) = .ok (some endpoint_status) := by
  refine ⟨fun h => ?_, fun h => ?_, rfl⟩ <;>
    simp [check_sagemaker_endpoint_status, h]

/-- C6 witness: a not-found message maps to absent; another message
propagates unchanged; a found endpoint reports its status. -/
theorem check_status_absent_iff_not_found_witness :
    check_sagemaker_endpoint_status
        (.error "An error occurred: Could not find endpoint arn") = .ok none
    ∧ check_sagemaker_endpoint_status (.error "AccessDenied") = .error "AccessDenied"
    ∧ check_sagemaker_endpoint_status (.ok "InService") = .ok (some "InService") :=
  ⟨(check_status_absent_iff_not_found
      "An error occurred: Could not find endpoint arn" "InService").1 (by decide),
   (check_status_absent_iff_not_found "AccessDenied" "InService").2.1 (by decide),
   (check_status_absent_iff_not_found "AccessDenied" "InService").2.2⟩

/-- C3: on every non-zero build exit code, `create_mlflow_base_docker_image`
prints NOTHING and raises `NameError`, not the described `ValueError`: line
110 of src/mlops.py assigns the message to the misspelled name `mgs`, so
`print(msg)` on line 111 reads an undefined name and raises before any
console output and before `raise ValueError(msg)` is reached. -/
theorem create_image_nonzero_exit_raises_name_error (status_code : Int)
    (h : status_code ≠ 0) :
    create_mlflow_base_docker_image status_code
      = ([], .error "NameError: name msg is not defined") := by
  simp [create_mlflow_base_docker_image, h]

/-- C3 witness: exit code 1 yields the `NameError` with an empty console
trace. -/
theorem create_image_nonzero_exit_raises_name_error_witness :
    create_mlflow_base_docker_image 1
      = ([], .error "NameError: name msg is not defined") :=
  create_image_nonzero_exit_raises_name_error 1 (by decide)

/-- C5: the time string returned by `convert_to_date_time` carries NO UTC
offset — `%z` renders empty on the naive datetime built by
`fromtimestamp` — shown by evaluating the function at epoch 0 under UTC
and at 1600000000000 ms under the +05:30 local offset: the date is in
YYYY-MM-DD form but the time is bare HH:MM:SS. -/
theorem convert_to_date_time_has_no_utc_offset :
    convert_to_date_time 0 0 = ("1970-01-01", "00:00:00")
    ∧ convert_to_date_time 330 1600000000000 = ("2020-09-13", "17:56:40") :=
  ⟨rfl, rfl⟩

/-- C8: `create_repository` is idempotent: after one call the repository
name is in the registry; a second call in succession leaves the state
unchanged, issues no creation call, and does not raise. -/
theorem create_repository_idempotent (st : List String) (repository_name : String) :
    repository_name ∈ (create_repository st repository_name).1
    ∧ (create_repository (create_repository st repository_name).1 repository_name).1
        = (create_repository st repository_name).1
    ∧ Effect.createRepo repository_name
        ∉ (create_repository (create_repository st repository_name).1 repository_name).2.1
    ∧ (create_repository (create_repository st repository_name).1 repository_name).2.2
        = .ok () := by
  unfold create_repository describe_repositories
  by_cases h : repository_name ∈ st <;> simp [h]

/-- C9: `execute_query` closes every cursor it opened, whatever the
execute and fetch outcomes; a null connection yields `None` and raises
nothing; a fetch failure is swallowed and yields `None`. -/
theorem execute_query_cursor_and_null_connection (connection : Option Conn)
    (conn : Conn) (c : Cursor) (sql_query e : String) :
    ((execute_query connection sql_query).cursorOpened = true →
        (execute_query connection sql_query).cursorClosed = true)
    ∧ execute_query none sql_query
        = { result := .ok none, cursorOpened := false, cursorClosed := false }
    ∧ (conn.cursor = some c → c.executeOutcome sql_query = .ok () →
        c.fetchOutcome = .error e →
        (execute_query (some conn) sql_query).result = .ok none) := by
  refine ⟨?_, rfl, fun hc he hf => ?_⟩
  · unfold execute_query
    split
    · simp
    · split
      · simp
      · split
        · simp
        · split <;> simp
  · simp [execute_query, hc, he, hf]

/-- C9 witness: a concrete connection whose fetch raises: the cursor is
opened and closed, the result is `None`; and the null connection returns
`None` with no cursor activity. -/
theorem execute_query_cursor_and_null_connection_witness :
    (execute_query (some fetchFailConn) "SELECT 1").result = .ok none
    ∧ (execute_query (some fetchFailConn) "SELECT 1").cursorClosed = true
    ∧ execute_query none "SELECT 1"
        = { result := .ok none, cursorOpened := false, cursorClosed := false } := by
  have h := execute_query_cursor_and_null_connection
    (some fetchFailConn) fetchFailConn fetchFailCursor "SELECT 1" "no rows"
  exact ⟨h.2.2 rfl rfl rfl, h.1 rfl, h.2.1⟩

/-- C2 (amended): whenever `get_mlflow_model_details` returns a record,
the revision tag it carries is the first-8-character slice of the run's
source-control tag (which leaves a tag shorter than 8 characters
unchanged); but when that tag is ABSENT from the run's tag map, the fetch
raises a `KeyError` (line 162 of src/mlops.py is a direct dict index) and
returns no record at all, rather than returning a record with a null
revision tag. -/
theorem get_mlflow_model_details_revision_tag (tz : Int) (run : MlflowRun)
    (experiment_name : String) :
    (∀ d : RunDetails, get_mlflow_model_details tz run experiment_name = .ok d →
        d.git_sha = (dictGet run.data.tags "mlflow.source.git.commit").map
          (fun t => strSlice t 8))
    ∧ (dictGet run.data.tags "mlflow.source.git.commit" = none →
        (get_mlflow_model_details tz run experiment_name).toOption = none) := by
  constructor
  · intro d h
    simp only [get_mlflow_model_details] at h
    split at h
    · simp at h
    · split at h
      · simp at h
      · split at h
        · simp at h
        · split at h
          · simp at h
          next git_sha hgs =>
            rw [hgs]
            injection h with h
            subst h
            by_cases hg : git_sha = ""
            · subst hg
              simp [strSlice]
            · simp [hg]
  · intro hnone
    simp only [get_mlflow_model_details]
    split
    · rfl
    · split
      · rfl
      · split
        · rfl
        · split
          · rfl
          next git_sha hgs =>
            rw [hnone] at hgs
            cases hgs

/-- C2 witness: for a run carrying the 16-character tag
"abcdef1234567890" the fetched record's revision tag is "abcdef12"; for a
run with an empty tag map the fetch returns no record. -/
theorem get_mlflow_model_details_revision_tag_witness :
    runWithTagDetails.git_sha = some "abcdef12"
    ∧ (get_mlflow_model_details 0 runNoTag "exp").toOption = none := by
  have h1 := (get_mlflow_model_details_revision_tag 0 runWithTag "exp").1
    runWithTagDetails (by rfl)
  have h2 := (get_mlflow_model_details_revision_tag 0 runNoTag "exp").2 (by rfl)
  exact ⟨h1.trans (by rfl), h2⟩

/-- C2 counterexample: a run whose tag map lacks
"mlflow.source.git.commit" makes `get_mlflow_model_details` raise
(`toOption = none`): no record carrying a null revision tag is ever
returned, contrary to the claim's absent-tag clause. -/
theorem get_mlflow_model_details_absent_tag_raises :
    dictGet runNoTag.data.tags "mlflow.source.git.commit" = none
    ∧ (get_mlflow_model_details 0 runNoTag "exp").toOption = none :=
  ⟨rfl, rfl⟩

/-- C1 (amended): when the endpoint status check reports a present
endpoint with a NONEMPTY status string and the deployment mode is create,
`deploy_model` raises the fatal `ValueError` before contacting the
tracking server or the hosting service: the trace holds only the status
lookup. -/
theorem deploy_model_present_create_raises (env : DeployEnv) (tz : Int)
    (app_name run_id s : String) (hdesc : env.describeOutcome = .ok s)
    (hs : s ≠ "") :
    deploy_model env tz app_name run_id Mode.create
      = ([Effect.describeEndpoint app_name],
         .error ("AWS Sagemaker endpoint " ++ app_name ++ " exist.")) := by
  unfold deploy_model check_sagemaker_endpoint_status
  rw [hdesc]
  simp [pyTruthy, hs]

/-- C1 witness: a present "InService" endpoint under create mode: the
deploy raises with only the status lookup in the trace. -/
theorem deploy_model_present_create_raises_witness :
    deploy_model presentDeployEnv 0 "demo" "rid" Mode.create
      = ([Effect.describeEndpoint "demo"],
         .error ("AWS Sagemaker endpoint " ++ "demo" ++ " exist.")) :=
  deploy_model_present_create_raises presentDeployEnv 0 "demo" "rid" "InService"
    rfl (by decide)

/-- C1 counterexample: when the status check succeeds with the EMPTY
status string — a present, non-absent endpoint — under create mode,
`deploy_model` does NOT raise: line 188 of src/mlops.py tests Python
truthiness (`if status and ...`), the empty string is falsy, so the run
metadata is fetched and the hosting-service deploy call is issued. -/
theorem deploy_model_empty_status_no_raise :
    check_sagemaker_endpoint_status emptyStatusDeployEnv.describeOutcome
        = .ok (some "")
    ∧ deploy_model emptyStatusDeployEnv 0 "demo" "rid" Mode.create
        = ([Effect.describeEndpoint "demo", Effect.getRun "rid",
            Effect.mfsDeploy "demo" Mode.create], .ok ()) :=
  ⟨rfl, rfl⟩

/-- C7 (amended): when the status check reports the endpoint absent,
`destroy_model` raises the fatal `ValueError` with only the status lookup
in its trace — no hosting-service delete call; when the status is
non-absent AND nonempty it issues the non-archiving delete
(`archive=False`). -/
theorem destroy_model_absent_raises (app_name msg s : String)
    (deleteOutcome : Except String Unit) :
    (containsSubstring msg "Could not find endpoint" = true →
        destroy_model (.error msg) deleteOutcome app_name
          = ([Effect.describeEndpoint app_name],
             .error ("Model " ++ app_name ++ " Endpoint not present")))
    ∧ (s ≠ "" →
        destroy_model (.ok s) deleteOutcome app_name
          = ([Effect.describeEndpoint app_name, Effect.mfsDelete app_name false],
             deleteOutcome)) := by
  constructor
  · intro h
    simp [destroy_model, check_sagemaker_endpoint_status, h, pyTruthy]
  · intro h
    simp [destroy_model, check_sagemaker_endpoint_status, pyTruthy, h]

/-- C7 witness: an absent endpoint (not-found lookup) makes the destroy
raise without a delete call; an "InService" endpoint gets the
non-archiving delete. -/
theorem destroy_model_absent_raises_witness :
    destroy_model (.error "Could not find endpoint demo") (.ok ()) "demo"
      = ([Effect.describeEndpoint "demo"],
         .error ("Model " ++ "demo" ++ " Endpoint not present"))
    ∧ destroy_model (.ok "InService") (.ok ()) "demo"
        = ([Effect.describeEndpoint "demo", Effect.mfsDelete "demo" false],
           .ok ()) :=
  ⟨(destroy_model_absent_raises "demo" "Could not find endpoint demo" "InService"
      (.ok ())).1 (by decide),
   (destroy_model_absent_raises "demo" "Could not find endpoint demo" "InService"
      (.ok ())).2 (by decide)⟩

/-- C7 counterexample: when the status check succeeds with the EMPTY
status string — a present, non-absent endpoint — `destroy_model` does NOT
issue the delete: line 213 of src/mlops.py tests Python truthiness, the
empty string is falsy, so it raises "Endpoint not present" instead. -/
theorem destroy_model_empty_status_no_delete :
    check_sagemaker_endpoint_status (Except.ok "") = .ok (some "")
    ∧ destroy_model (Except.ok "") (Except.ok ()) "demo"
        = ([Effect.describeEndpoint "demo"],
           .error ("Model " ++ "demo" ++ " Endpoint not present")) :=
  ⟨rfl, rfl⟩

/-- C10: `get_test_data` returns `None` for a missing file, the UTF-8
bytes of non-empty content, and the empty `str` itself (neither null nor
bytes) for an existing empty file. -/
theorem get_test_data_cases (content : String) (h : content ≠ "") :
    get_test_data (some content) = some (.bytes (utf8Bytes content))
    ∧ get_test_data (some "") = some (.text "")
    ∧ get_test_data none = none := by
  refine ⟨?_, rfl, rfl⟩
  simp [get_test_data, h]

/-- C10 witness: the two-byte file "hi", the empty file, and the missing
file. -/
theorem get_test_data_cases_witness :
    get_test_data (some "hi") = some (.bytes [104, 105])
    ∧ get_test_data (some "") = some (.text "")
    ∧ get_test_data none = none :=
  ⟨((get_test_data_cases "hi" (by decide)).1).trans (by rfl),
   (get_test_data_cases "hi" (by decide)).2.1,
   (get_test_data_cases "hi" (by decide)).2.2⟩



